import Mathlib

/-!
Shallow embedding of `src/double_calendar_monitor.py` (a Streamlit dashboard
monitoring double-calendar option positions) and proofs about its core logic:
the valuation formula `calculate_pl_values`, the option-symbol encoder
`generate_option_symbol`, the quote client `get_option_data`, the per-leg
alert state machine and per-minute history deduplication inside
`render_calendar_block`, and the per-position aggregation loop.

Python floats are modelled as rationals (`ℚ`); Python strings as `String`.
-/

namespace DoubleCalendarMonitor

/-! ## Valuation engine: `calculate_pl_values` (source lines 106-112) -/

/-- Result dictionary of `calculate_pl_values`
(`{"initial_cost": ..., "absolute_pl": ..., "z_percent": ...}`). -/
structure PLResult where
  initial_cost : ℚ
  absolute_pl : ℚ
  z_percent : ℚ
  deriving Repr, DecidableEq

/-- `calculate_pl_values(td_price_back, td_price_front, now_price_back,
now_price_front)`: early-returns all zeros when `initial_cost == 0`,
otherwise `z_percent = (absolute_pl / abs(initial_cost)) * 100`. -/
def calculate_pl_values (td_price_back td_price_front now_price_back now_price_front : ℚ) :
    PLResult :=
  let initial_cost := td_price_back - td_price_front
  if initial_cost = 0 then
    { initial_cost := 0, absolute_pl := 0, z_percent := 0 }
  else
    let current_value := now_price_back - now_price_front
    let absolute_pl := current_value - initial_cost
    let z_percent := (absolute_pl / |initial_cost|) * 100
    { initial_cost := initial_cost, absolute_pl := absolute_pl, z_percent := z_percent }

/-! ## Symbol encoder: `generate_option_symbol` (source lines 100-104) -/

/-- Python `int()` applied to a rational: truncation toward zero. -/
def pyInt (q : ℚ) : ℤ :=
  if 0 ≤ q then ⌊q⌋ else ⌈q⌉

/-- Zero-pad the decimal representation of `n` on the left to a minimum
width `w` (Python `f"{n:0wd}"` for a nonnegative `n`). -/
def natPad (w : ℕ) (n : ℕ) : String :=
  String.mk (List.replicate (w - (toString n).length) '0') ++ toString n

/-- Python `f"{n:08d}"` on an integer: minimum total width 8, sign first. -/
def intPad8 (n : ℤ) : String :=
  if 0 ≤ n then natPad 8 n.toNat else "-" ++ natPad 7 (-n).toNat

/-- Split a character list at every occurrence of `sep`. -/
def splitFields (sep : Char) : List Char → List (List Char)
  | [] => [[]]
  | c :: cs =>
      match splitFields sep cs with
      | [] => if c = sep then [[], []] else [[c]]
      | f :: fs => if c = sep then [] :: f :: fs else (c :: f) :: fs

/-- Read a nonempty all-digit character list as a decimal number. -/
def digitsToNat (cs : List Char) : Option ℕ :=
  if cs ≠ [] ∧ cs.all Char.isDigit then
    some (cs.foldl (fun n c => 10 * n + (c.toNat - '0'.toNat)) 0)
  else none

/-- `datetime.strptime(exp_date, "%Y-%m-%d")`: parse a `YYYY-MM-DD` string
into (year, month, day), `none` when malformed (the source raises). -/
def parseDate (s : String) : Option (ℕ × ℕ × ℕ) :=
  match (splitFields '-' s.toList).map digitsToNat with
  | [some y, some m, some d] =>
      if 1 ≤ m ∧ m ≤ 12 ∧ 1 ≤ d ∧ d ≤ 31 then some (y, m, d) else none
  | _ => none

/-- `exp_dt.strftime('%y%m%d')`: two-digit year, month, day. -/
def strftime_yymmdd (y m d : ℕ) : String :=
  natPad 2 (y % 100) ++ natPad 2 m ++ natPad 2 d

/-- `''.join([i for i in ticker if not i.isdigit()])`: the source drops
every digit character of the ticker, wherever it occurs. -/
def stripDigits (ticker : String) : String :=
  String.mk (ticker.toList.filter (fun c => ¬ c.isDigit))

/-- `generate_option_symbol(ticker, exp_date, strike, option_type)`.
`none` models the exceptions the source raises on a malformed date or an
empty `option_type` (where `option_type[0]` would fail). -/
def generate_option_symbol (ticker exp_date : String) (strike : ℚ) (option_type : String) :
    Option String :=
  match parseDate exp_date, option_type.toList with
  | some (y, m, d), tc :: _ =>
      let strike_part := intPad8 (pyInt (strike * 1000))
      let base_ticker := stripDigits ticker
      some (base_ticker ++ strftime_yymmdd y m d ++ String.mk [tc.toUpper] ++ strike_part)
  | _, _ => none

/-! ## Quote client: `get_option_data` (source lines 83-98) -/

/-- Parsed JSON body of a 2xx reply: `{ s: ..., last: [...], iv: [...] }`.
An absent or empty `last`/`iv` array is modelled as `[]`. -/
structure ApiData where
  s : String
  last : List ℚ
  iv : List ℚ
  deriving Repr, DecidableEq

/-- Outcome of the underlying `requests.get` call, supplied as an oracle:
a 2xx body, an HTTP error status (`raise_for_status`), or a transport
error. -/
inductive HttpResp where
  | ok (d : ApiData)
  | httpErr (code : ℕ) (detail : String)
  | connErr (detail : String)
  deriving Repr, DecidableEq

/-- The `(success, payload-or-message)` tuple `get_option_data` returns. -/
inductive FetchResult where
  | success (d : ApiData)
  | failure (msg : String)
  deriving Repr, DecidableEq

/-- `get_option_data(option_symbol)` with the module-level token made
explicit and the network call abstracted as `resp`. The second component
records whether a request was attempted (the source returns before
`requests.get` when the token or the symbol is empty). -/
def get_option_data (token option_symbol : String) (resp : HttpResp) :
    FetchResult × Bool :=
  if token = "" ∨ option_symbol = "" then
    (.failure "Token ou símbolo ausente.", false)
  else
    (match resp with
      | .ok d =>
          if d.s = "ok" then .success d
          else .failure ("API retornou 'no_data' para " ++ option_symbol ++ ".")
      | .httpErr code detail =>
          if code = 400 then .failure ("Erro 400: Símbolo inválido: " ++ option_symbol)
          else .failure ("Erro de API para " ++ option_symbol ++ ": " ++ detail)
      | .connErr detail =>
          .failure ("Erro de conexão para " ++ option_symbol ++ ": " ++ detail),
     true)

/-! ## Alert evaluator inside `render_calendar_block` (source lines 125-132)

The mutable `alert_sent` flag is the state: `alert_sent = false` is the
ARMED state, `alert_sent = true` is the SENT state. One evaluation of the
alert block is `alertStep`, returning the updated flag and whether a
Telegram notification was emitted. -/

/-- One pass of the alert block for a leg with threshold `target`, flag
`sent` and current `z_percent` value `z`: `(new flag, notified?)`. -/
def alertStep (target : ℚ) (sent : Bool) (z : ℚ) : Bool × Bool :=
  if 0 < target then
    if target ≤ z ∧ sent = false then (true, true)
    else if z < target ∧ sent = true then (false, false)
    else (sent, false)
  else (sent, false)

/-- Run the alert block over a sequence of `z_percent` values, returning
the final flag and the number of notifications emitted. -/
def runAlerts (target : ℚ) (sent : Bool) (zs : List ℚ) : Bool × ℕ :=
  zs.foldl
    (fun acc z =>
      let st := alertStep target acc.1 z
      (st.1, acc.2 + (if st.2 then 1 else 0)))
    (sent, 0)

/-! ## History deduplication (source lines 120-123 and 267-271)

`if not history['ts'] or history['ts'][-1] != current_time_str:` append
the label and the value, else leave both series unchanged. -/

/-- One evaluation's append to a `(ts, value)` series pair under the
per-minute dedup guard. -/
def historyAppend (hist : List String × List ℚ) (label : String) (v : ℚ) :
    List String × List ℚ :=
  if hist.1 = [] ∨ hist.1.getLast? ≠ some label then
    (hist.1 ++ [label], hist.2 ++ [v])
  else hist

/-! ## Per-position evaluation loop (source lines 221-254) -/

/-- One leg record (`calendar_data` dictionary): option class, strike, TD
prices, expirations, alert threshold and flag. -/
structure CalData where
  type : String
  display_name : String
  strike : ℚ
  td_price_front : ℚ
  td_price_back : ℚ
  exp_front : String
  exp_back : String
  alert_target : ℚ
  alert_sent : Bool
  deriving Repr, DecidableEq

/-- One entry of `live_data_list`. -/
structure LiveData where
  now_price_front : ℚ
  now_price_back : ℚ
  back_api_data : Option ApiData
  pl : PLResult
  deriving Repr, DecidableEq

/-- `data['last'][0] if success and data.get('last') else 0`: the source
falls back to price 0 on a failed fetch or an absent/empty `last` array. -/
def price_or_zero (r : FetchResult) : ℚ :=
  match r with
  | .success d => match d.last with | [] => 0 | p :: _ => p
  | .failure _ => 0

/-- The body of the `for cal_data in all_calendars` loop for one leg
(source lines 226-233). `net` maps a symbol to its network outcome. A
malformed expiration date raises in the source before any fetch; here it
degrades to the empty symbol, which `get_option_data` rejects without a
request, keeping the function total. -/
def evalLeg (token ticker : String) (net : String → HttpResp) (cal : CalData) : LiveData :=
  let front_symbol := (generate_option_symbol ticker cal.exp_front cal.strike cal.type).getD ""
  let back_symbol := (generate_option_symbol ticker cal.exp_back cal.strike cal.type).getD ""
  let rf := (get_option_data token front_symbol (net front_symbol)).1
  let rb := (get_option_data token back_symbol (net back_symbol)).1
  let now_price_front := price_or_zero rf
  let now_price_back := price_or_zero rb
  { now_price_front := now_price_front
    now_price_back := now_price_back
    back_api_data := match rb with | .success d => some d | .failure _ => none
    pl := calculate_pl_values cal.td_price_back cal.td_price_front now_price_back now_price_front }

/-- The whole per-position loop producing `live_data_list`, one entry per
calendar in `all_calendars`. -/
def evalAllCalendars (token ticker : String) (net : String → HttpResp)
    (all_calendars : List CalData) : List LiveData :=
  all_calendars.map (evalLeg token ticker net)

/-- Position-level aggregation (source lines 252-254):
`total_pl_percent = (total_absolute_pl / total_initial_cost) * 100 if
total_initial_cost != 0 else 0`. -/
def total_pl_percent (live_data_list : List LiveData) : ℚ :=
  let total_absolute_pl := (live_data_list.map (fun item => item.pl.absolute_pl)).sum
  let total_initial_cost := (live_data_list.map (fun item => |item.pl.initial_cost|)).sum
  if total_initial_cost ≠ 0 then (total_absolute_pl / total_initial_cost) * 100 else 0

/-! ## Spec-side definitions used to state claims -/

/-- The spec claim's reading of the base-symbol step: strip only the
TRAILING digits of the ticker (the source instead drops every digit). -/
def stripTrailingDigits (ticker : String) : String :=
  String.mk ((ticker.toList.reverse.dropWhile Char.isDigit).reverse)

/-! ## Helper lemmas -/

/-- After an evaluation with label `l`, the ts series always ends in `l`. -/
theorem historyAppend_last (hist : List String × List ℚ) (label : String) (v : ℚ) :
    ((historyAppend hist label v).1).getLast? = some label := by
  unfold historyAppend
  split_ifs with h
  · simp [List.getLast?_concat]
  · push_neg at h
    simpa using h.2

/-- An evaluation whose label already ends the ts series is a no-op. -/
theorem historyAppend_eq_self (hist : List String × List ℚ) (label : String) (w : ℚ)
    (hl : hist.1.getLast? = some label) : historyAppend hist label w = hist := by
  have hne : hist.1 ≠ [] := by
    intro he
    rw [he] at hl
    simp at hl
  simp [historyAppend, hl, hne]

/-- With a nonpositive target the alert block is the identity and emits
nothing. -/
theorem alertStep_nonpos (target : ℚ) (h : target ≤ 0) (sent : Bool) (z : ℚ) :
    alertStep target sent z = (sent, false) := by
  simp [alertStep, not_lt.mpr h]

/-! ## Claim theorems -/

/-- C2: for every input with `td_price_back - td_price_front ≠ 0`,
`calculate_pl_values` returns `initial_cost = td_back - td_front`,
`absolute_pl = (now_back - now_front) - initial_cost` and
`z_percent = (absolute_pl / |initial_cost|) * 100`; in particular
`calculate_pl_values 5 2 6 1.5 = ⟨3, 1.5, 50⟩`. -/
theorem calculate_pl_values_nonzero_cost :
    (∀ (tb tf nb nf : ℚ), tb - tf ≠ 0 →
        calculate_pl_values tb tf nb nf =
          { initial_cost := tb - tf
            absolute_pl := (nb - nf) - (tb - tf)
            z_percent := (((nb - nf) - (tb - tf)) / |tb - tf|) * 100 }) ∧
    calculate_pl_values 5 2 6 (3/2) = { initial_cost := 3, absolute_pl := 3/2, z_percent := 50 } := by
  constructor
  · intro tb tf nb nf h
    simp only [calculate_pl_values, if_neg h]
  · simp only [calculate_pl_values]
    norm_num

/-- Witness for `calculate_pl_values_nonzero_cost`: its universal part
applied at the spec's own example input. -/
theorem calculate_pl_values_nonzero_cost_witness :
    calculate_pl_values 5 2 6 (3/2) =
      { initial_cost := (5 : ℚ) - 2
        absolute_pl := ((6 : ℚ) - 3/2) - (5 - 2)
        z_percent := ((((6 : ℚ) - 3/2) - (5 - 2)) / |(5 : ℚ) - 2|) * 100 } :=
  calculate_pl_values_nonzero_cost.1 5 2 6 (3/2) (by norm_num)

/-- C3 counterexample: at `td_back = td_front = 2`, `now_back = 6`,
`now_front = 1.5` the source returns `absolute_pl = 0`, not the computed
`current_value - initial_cost = 4.5` the claim asserts. -/
theorem calculate_pl_values_zero_cost_cex :
    (2 : ℚ) - 2 = 0 ∧
    calculate_pl_values 2 2 6 (3/2) = { initial_cost := 0, absolute_pl := 0, z_percent := 0 } ∧
    (calculate_pl_values 2 2 6 (3/2)).absolute_pl ≠ ((6 : ℚ) - 3/2) - ((2 : ℚ) - 2) := by
  refine ⟨by norm_num, by simp [calculate_pl_values], ?_⟩
  simp only [calculate_pl_values]
  norm_num

/-- C3 (amended): when `td_price_back - td_price_front = 0` the valuation
returns `z_percent = 0` without failing, and every field of the result —
`absolute_pl` included — is `0` (the zero-cost early return), for any
`now` prices. -/
theorem calculate_pl_values_zero_cost :
    ∀ (tb tf nb nf : ℚ), tb - tf = 0 →
      calculate_pl_values tb tf nb nf =
        { initial_cost := 0, absolute_pl := 0, z_percent := 0 } := by
  intro tb tf nb nf h
  simp only [calculate_pl_values, if_pos h]

/-- Witness for `calculate_pl_values_zero_cost` at the spec's zero-cost
example input. -/
theorem calculate_pl_values_zero_cost_witness :
    calculate_pl_values 2 2 6 (3/2) = { initial_cost := 0, absolute_pl := 0, z_percent := 0 } :=
  calculate_pl_values_zero_cost 2 2 6 (3/2) (by norm_num)

/-- C5: for every `live_data_list`, the position aggregate equals
`(Σ absolute_pl) / (Σ |initial_cost|) * 100` (with the rational junk
value `x / 0 = 0` this single formula also covers the guard), and it
equals `0` when the denominator is `0`. -/
theorem total_pl_percent_formula :
    (∀ (live_data_list : List LiveData),
        total_pl_percent live_data_list =
          ((live_data_list.map (fun item => item.pl.absolute_pl)).sum /
            (live_data_list.map (fun item => |item.pl.initial_cost|)).sum) * 100) ∧
    (∀ (live_data_list : List LiveData),
        (live_data_list.map (fun item => |item.pl.initial_cost|)).sum = 0 →
          total_pl_percent live_data_list = 0) := by
  constructor
  · intro l
    by_cases h : (List.map (fun item => |item.pl.initial_cost|) l).sum = 0
    · simp [total_pl_percent, h]
    · simp [total_pl_percent, h]
  · intro l h
    simp [total_pl_percent, h]

/-- Witness for `total_pl_percent_formula`: the zero-denominator branch
at the empty list. -/
theorem total_pl_percent_formula_witness : total_pl_percent [] = 0 :=
  total_pl_percent_formula.2 [] (by simp)

/-- C7: with a nonpositive alert target the alert block never notifies
and never changes the `alert_sent` flag, for every `z_percent` sequence. -/
theorem alert_disabled :
    ∀ (target : ℚ), target ≤ 0 →
      (∀ (sent : Bool) (z : ℚ), alertStep target sent z = (sent, false)) ∧
      (∀ (sent : Bool) (zs : List ℚ), runAlerts target sent zs = (sent, 0)) := by
  intro target h
  refine ⟨alertStep_nonpos target h, ?_⟩
  intro sent zs
  have key : ∀ (l : List ℚ) (p : Bool × ℕ),
      l.foldl (fun acc z =>
        let st := alertStep target acc.1 z
        (st.1, acc.2 + (if st.2 then 1 else 0))) p = p := by
    intro l
    induction l with
    | nil => intro p; rfl
    | cons z l ih =>
        intro p
        rw [List.foldl_cons]
        have hs := alertStep_nonpos target h p.1 z
        simp only [hs]
        simpa using ih p
  exact key zs (sent, 0)

/-- Witness for `alert_disabled`: a disabled leg (target 0) stays armed
and emits nothing on the sequence `[10, 25]`. -/
theorem alert_disabled_witness : runAlerts 0 false [10, 25] = (false, 0) :=
  (alert_disabled 0 le_rfl).2 false [10, 25]

/-- C8: two consecutive evaluations carrying the same "HH:MM" label
append at most one entry: the second evaluation leaves both series
unchanged, and one evaluation grows the ts series by at most one. -/
theorem history_dedup_same_minute :
    ∀ (hist : List String × List ℚ) (label : String) (v w : ℚ),
      historyAppend (historyAppend hist label v) label w = historyAppend hist label v ∧
      ((historyAppend hist label v).1).length ≤ hist.1.length + 1 := by
  intro hist label v w
  constructor
  · exact historyAppend_eq_self _ _ _ (historyAppend_last hist label v)
  · unfold historyAppend
    split_ifs <;> simp

/-- C10: the dedup guard compares only against the LAST entry, so the
real invariant is that consecutive labels differ (appending preserves
`Chain' (· ≠ ·)`), while a label recurring non-adjacently — e.g. the same
"HH:MM" on the next day — is appended again, breaking whole-series
uniqueness: the run `"23:59", "00:00", "23:59"` yields a ts series with a
duplicate label. -/
theorem history_dedup_adjacent_only :
    (∀ (hist : List String × List ℚ) (label : String) (v : ℚ),
        hist.1.Chain' (fun a b => a ≠ b) →
        ((historyAppend hist label v).1).Chain' (fun a b => a ≠ b)) ∧
    (historyAppend (historyAppend (historyAppend ([], []) "23:59" 1) "00:00" 2) "23:59" 3).1 =
      ["23:59", "00:00", "23:59"] ∧
    ¬ (["23:59", "00:00", "23:59"] : List String).Nodup := by
  refine ⟨?_, by decide, by decide⟩
  intro hist label v hc
  unfold historyAppend
  split_ifs with h
  · rcases h with h | h
    · simp [h]
    · rw [List.chain'_append]
      refine ⟨hc, List.chain'_singleton _, ?_⟩
      intro x hx y hy
      simp only [List.head?_cons] at hy
      rw [Option.mem_def] at hx hy
      have hyl : label = y := Option.some_inj.mp hy
      intro hxy
      apply h
      rw [hx, hxy, hyl]
  · exact hc

/-- Witness for `history_dedup_adjacent_only`: its preservation part
applied to the singleton series `["23:59"]`. -/
theorem history_dedup_adjacent_only_witness :
    ((historyAppend (["23:59"], [1]) "00:00" 2).1).Chain' (fun a b => a ≠ b) :=
  history_dedup_adjacent_only.1 (["23:59"], [1]) "00:00" 2 (by simp)

/-- C1: the alert block is an edge-triggered two-state machine on the
`alert_sent` flag (`false` = ARMED, `true` = SENT): a notification is
emitted exactly when `z_percent ≥ target`, `target > 0` and the leg is
ARMED (moving it to SENT); from SENT the leg re-arms — without notifying
— exactly when `z_percent < target` and `target > 0` (in particular the
flag stays SENT while `z_percent ≥ target`); and for `target = 20` the
sequence `[10, 25, 30, 15, 22]` emits exactly two notifications. -/
theorem alert_edge_triggered :
    (∀ (target : ℚ) (sent : Bool) (z : ℚ),
        (alertStep target sent z).2 = true ↔ (z ≥ target ∧ target > 0 ∧ sent = false)) ∧
    (∀ (target : ℚ) (sent : Bool) (z : ℚ),
        target > 0 → z ≥ target → sent = false → alertStep target sent z = (true, true)) ∧
    (∀ (target : ℚ) (sent : Bool) (z : ℚ),
        target > 0 → z < target → sent = true → alertStep target sent z = (false, false)) ∧
    (∀ (target z : ℚ), alertStep target true z = (false, false) ↔ (z < target ∧ target > 0)) ∧
    (∀ (target z : ℚ), ¬ (z < target ∧ target > 0) → alertStep target true z = (true, false)) ∧
    runAlerts 20 false [10, 25, 30, 15, 22] = (true, 2) := by
  refine ⟨?_, ?_, ?_, ?_, ?_, ?_⟩
  · intro target sent z
    simp only [alertStep, ge_iff_le, gt_iff_lt]
    split_ifs with h1 h2 h3 <;> simp_all
  · intro target sent z h1 h2 h3
    unfold alertStep
    rw [if_pos h1, if_pos ⟨h2, h3⟩]
  · intro target sent z h1 h2 h3
    unfold alertStep
    rw [if_pos h1, if_neg (by simp [h3, not_le.mpr h2]), if_pos ⟨h2, h3⟩]
  · intro target z
    simp only [alertStep, gt_iff_lt]
    split_ifs with h1 h2 h3 <;> simp_all
  · intro target z h
    simp only [alertStep]
    split_ifs with h1 h2 h3 <;> simp_all
  · simp only [runAlerts, alertStep, List.foldl]
    norm_num

/-- Witness for `alert_edge_triggered`: its transition parts applied at
concrete inputs (fire at 25 from ARMED, re-arm at 15 from SENT, stay
SENT at 30). -/
theorem alert_edge_triggered_witness :
    alertStep 20 false 25 = (true, true) ∧ alertStep 20 true 15 = (false, false) ∧
    alertStep 20 true 30 = (true, false) :=
  ⟨alert_edge_triggered.2.1 20 false 25 (by norm_num) (by norm_num) rfl,
   alert_edge_triggered.2.2.1 20 true 15 (by norm_num) (by norm_num) rfl,
   alert_edge_triggered.2.2.2.2.1 20 30 (by norm_num)⟩

/-- C4 counterexample: the source drops EVERY digit of the ticker, not
only trailing ones; for ticker `"B3SA3"` it produces base `"BSA"`, not
the `"B3SA"` the claim's trailing-digit rule yields. -/
theorem generate_option_symbol_strips_all_digits_cex :
    stripTrailingDigits "B3SA3" = "B3SA" ∧
    generate_option_symbol "B3SA3" "2024-03-15" (71/2) "put" = some "BSA240315P00035500" ∧
    generate_option_symbol "B3SA3" "2024-03-15" (71/2) "put" ≠
      some (stripTrailingDigits "B3SA3" ++ "240315" ++ "P" ++ "00035500") := by
  have h : pyInt ((71/2 : ℚ) * 1000) = 35500 := by norm_num [pyInt]
  have hsym : generate_option_symbol "B3SA3" "2024-03-15" (71/2) "put" =
      some "BSA240315P00035500" := by
    simp only [generate_option_symbol,
      show parseDate "2024-03-15" = some (2024, 3, 15) from by decide, h]
    decide
  refine ⟨by decide, hsym, ?_⟩
  rw [hsym]
  decide

/-- C4 (amended): the encoder removes every digit character of the ticker
(not only trailing digits) to obtain the base symbol, formats the
expiration as `YYMMDD`, uppercases the first letter of the option class,
and renders `int(strike * 1000)` zero-padded to a minimum width of 8;
in particular `encode("PETR4", "2024-03-15", 35.50, "put") =
"PETR240315P00035500"`. -/
theorem generate_option_symbol_spec :
    (∀ (ticker exp_date : String) (strike : ℚ) (option_type : String)
        (y m d : ℕ) (c : Char) (rest : List Char),
        parseDate exp_date = some (y, m, d) →
        option_type.toList = c :: rest →
        generate_option_symbol ticker exp_date strike option_type =
          some (stripDigits ticker ++ natPad 2 (y % 100) ++ natPad 2 m ++ natPad 2 d ++
                String.mk [c.toUpper] ++ intPad8 (pyInt (strike * 1000)))) ∧
    generate_option_symbol "PETR4" "2024-03-15" (71/2) "put" = some "PETR240315P00035500" := by
  constructor
  · intro ticker exp_date strike option_type y m d c rest hp ht
    simp only [generate_option_symbol, hp, ht, strftime_yymmdd, String.append_assoc]
  · have h : pyInt ((71/2 : ℚ) * 1000) = 35500 := by norm_num [pyInt]
    simp only [generate_option_symbol,
      show parseDate "2024-03-15" = some (2024, 3, 15) from by decide, h]
    decide

/-- Witness for `generate_option_symbol_spec`: its universal part applied
at the spec's own example input. -/
theorem generate_option_symbol_spec_witness :
    generate_option_symbol "PETR4" "2024-03-15" (71/2) "put" =
      some (stripDigits "PETR4" ++ natPad 2 (2024 % 100) ++ natPad 2 3 ++ natPad 2 15 ++
            String.mk ['p'.toUpper] ++ intPad8 (pyInt ((71/2 : ℚ) * 1000))) :=
  generate_option_symbol_spec.1 "PETR4" "2024-03-15" (71/2) "put" 2024 3 15 'p' ['u', 't']
    (by decide) (by decide)

/-- C6 counterexample: a missing token and a missing symbol produce the
SAME `(False, "Token ou símbolo ausente.")` tuple, so the two cases the
claim calls distinct failure reasons are indistinguishable to a caller. -/
theorem get_option_data_missing_cex :
    get_option_data "" "PETR240315P00035500" (.ok { s := "ok", last := [5], iv := [1/2] }) =
      get_option_data "TOKEN" "" (.ok { s := "ok", last := [5], iv := [1/2] }) ∧
    get_option_data "" "PETR240315P00035500" (.ok { s := "ok", last := [5], iv := [1/2] }) =
      (.failure "Token ou símbolo ausente.", false) := by
  constructor <;> rfl

/-- C6 (amended): a missing credential and an empty symbol both
short-circuit — before any request — to one shared failure
`"Token ou símbolo ausente."`; an HTTP 400 maps to the invalid-symbol
failure and a 2xx body whose status is not `"ok"` to the no-data failure,
and those two are distinct from each other and from the shared
missing-input failure. -/
theorem get_option_data_error_mapping :
    (∀ (token symbol : String) (resp : HttpResp), token = "" ∨ symbol = "" →
        get_option_data token symbol resp = (.failure "Token ou símbolo ausente.", false)) ∧
    (∀ (token symbol detail : String), token ≠ "" → symbol ≠ "" →
        get_option_data token symbol (.httpErr 400 detail) =
          (.failure ("Erro 400: Símbolo inválido: " ++ symbol), true)) ∧
    (∀ (token symbol : String) (d : ApiData), token ≠ "" → symbol ≠ "" → d.s ≠ "ok" →
        get_option_data token symbol (.ok d) =
          (.failure ("API retornou \x27no_data\x27 para " ++ symbol ++ "."), true)) ∧
    (∀ (symbol symbol2 : String),
        "Token ou símbolo ausente." ≠ "Erro 400: Símbolo inválido: " ++ symbol ∧
        "Token ou símbolo ausente." ≠ "API retornou \x27no_data\x27 para " ++ symbol ++ "." ∧
        "Erro 400: Símbolo inválido: " ++ symbol ≠
          "API retornou \x27no_data\x27 para " ++ symbol2 ++ ".") := by
  refine ⟨?_, ?_, ?_, ?_⟩
  · intro token symbol resp h
    simp only [get_option_data]
    rw [if_pos h]
  · intro token symbol detail h1 h2
    simp only [get_option_data]
    rw [if_neg (not_or.mpr ⟨h1, h2⟩)]
    simp
  · intro token symbol d h1 h2 h3
    simp only [get_option_data]
    rw [if_neg (not_or.mpr ⟨h1, h2⟩)]
    simp [h3]
  · intro symbol symbol2
    refine ⟨?_, ?_, ?_⟩
    · intro h
      have h1 : ("Token ou símbolo ausente.").data.head? =
          ("Erro 400: Símbolo inválido: " ++ symbol).data.head? := by rw [h]
      have h2 : (some 'T' : Option Char) = some 'E' := h1
      simp at h2
    · intro h
      have h1 : ("Token ou símbolo ausente.").data.head? =
          ("API retornou \x27no_data\x27 para " ++ symbol ++ ".").data.head? := by rw [h]
      have h2 : (some 'T' : Option Char) = some 'A' := h1
      simp at h2
    · intro h
      have h1 : (("Erro 400: Símbolo inválido: " ++ symbol)).data.head? =
          ("API retornou \x27no_data\x27 para " ++ symbol2 ++ ".").data.head? := by rw [h]
      have h2 : (some 'E' : Option Char) = some 'A' := h1
      simp at h2

/-- Witness for `get_option_data_error_mapping`: its three mapping parts
applied at concrete inputs. -/
theorem get_option_data_error_mapping_witness :
    get_option_data "" "SYM" (.connErr "timeout") =
      (.failure "Token ou símbolo ausente.", false) ∧
    get_option_data "TOKEN" "SYM" (.httpErr 400 "bad request") =
      (.failure ("Erro 400: Símbolo inválido: " ++ "SYM"), true) ∧
    get_option_data "TOKEN" "SYM" (.ok { s := "no_data", last := [], iv := [] }) =
      (.failure ("API retornou \x27no_data\x27 para " ++ "SYM" ++ "."), true) :=
  ⟨get_option_data_error_mapping.1 "" "SYM" (.connErr "timeout") (Or.inl rfl),
   get_option_data_error_mapping.2.1 "TOKEN" "SYM" "bad request"
     (by decide) (by decide),
   get_option_data_error_mapping.2.2.1 "TOKEN" "SYM" { s := "no_data", last := [], iv := [] }
     (by decide) (by decide) (by decide)⟩

/-- C9: every calendar of `all_calendars` is evaluated regardless of any
other leg's fetch outcome (the loop is an independent map producing one
`live_data_list` entry per leg), a failed fetch or an absent/empty
`last` series yields price `0`, the leg's prices are exactly the
zero-defaulted fetch results, and its valuation is still computed by
`calculate_pl_values` from those (possibly zero) prices. -/
theorem leg_failure_isolation :
    (∀ (token ticker : String) (net : String → HttpResp) (all_calendars : List CalData),
        (evalAllCalendars token ticker net all_calendars).length = all_calendars.length) ∧
    (∀ (token ticker : String) (net : String → HttpResp) (all_calendars : List CalData) (i : ℕ),
        (evalAllCalendars token ticker net all_calendars).get? i =
          (all_calendars.get? i).map (evalLeg token ticker net)) ∧
    (∀ (msg : String), price_or_zero (.failure msg) = 0) ∧
    (∀ (s : String) (iv : List ℚ), price_or_zero (.success { s := s, last := [], iv := iv }) = 0) ∧
    (∀ (token ticker : String) (net : String → HttpResp) (cal : CalData),
        (evalLeg token ticker net cal).now_price_front =
          price_or_zero (get_option_data token
            ((generate_option_symbol ticker cal.exp_front cal.strike cal.type).getD "")
            (net ((generate_option_symbol ticker cal.exp_front cal.strike cal.type).getD ""))).1 ∧
        (evalLeg token ticker net cal).now_price_back =
          price_or_zero (get_option_data token
            ((generate_option_symbol ticker cal.exp_back cal.strike cal.type).getD "")
            (net ((generate_option_symbol ticker cal.exp_back cal.strike cal.type).getD ""))).1 ∧
        (evalLeg token ticker net cal).pl =
          calculate_pl_values cal.td_price_back cal.td_price_front
            (evalLeg token ticker net cal).now_price_back
            (evalLeg token ticker net cal).now_price_front) := by
  refine ⟨?_, ?_, ?_, ?_, ?_⟩
  · intro token ticker net all_calendars
    simp [evalAllCalendars]
  · intro token ticker net all_calendars i
    simp [evalAllCalendars]
  · intro msg
    rfl
  · intro s iv
    rfl
  · intro token ticker net cal
    exact ⟨rfl, rfl, rfl⟩

end DoubleCalendarMonitor
